import Mathlib

/-!
Verification of the order-processing pipeline: a shallow embedding of the
three Lambda handlers (order intake, inventory settlement worker, notification
worker) of the aws-order-processing-system repository, together with the
conditional-write semantics of the external key-value store they depend on.

Conventions of the embedding:
* DynamoDB items are records with `Option` fields (an absent attribute is
  `none`); numbers are `Int` (the source manipulates JS numbers that are
  integers in every code path modelled here).
* The external store offers atomic single-key conditional writes: a
  `ConditionExpression` is evaluated against the current item at the instant
  of the write.  A rejected condition surfaces as an error whose `name` is
  `"ConditionalCheckFailedException"`, exactly the string the source compares
  against.
* Outbound dependency calls (the Groq text-completion API, the store, the
  bus) are injected as explicit outcomes, so a handler is a pure function of
  its input, its state and the behaviour of its dependencies.
-/

namespace OrderSystem

/-- The error name DynamoDB uses for a rejected conditional write; the
inventory worker compares `err.name` against this string. -/
def conditionalCheckFailed : String := "ConditionalCheckFailedException"

/-- One record of the Orders table.  Attributes beyond the key are optional:
an item written by `updateOrderStatus` for an unknown `orderId` carries only
the key, the status and `updatedAt`. -/
structure OrderRecord where
  orderId : String
  customerId : Option String := none
  productId : Option String := none
  quantity : Option Int := none
  totalAmount : Option Int := none
  status : Option String := none
  createdAt : Option String := none
  updatedAt : Option String := none
deriving DecidableEq

/-- The Orders table: a list of items, keyed by `orderId`. -/
abbrev OrdersTable : Type := List OrderRecord

/-- `get(Orders, orderId)`: first (and, under the insert condition, only)
record with the given key. -/
def lookupOrder (tbl : OrdersTable) (k : String) : Option OrderRecord :=
  List.find? (fun r => r.orderId = k) tbl

/-- `PutItemCommand` with `ConditionExpression: attribute_not_exists(orderId)`
(order-service/index.ts): the write succeeds only if no record with that key
exists; otherwise the store rejects it with a conditional-check failure and
the table is left unchanged. -/
def putOrderConditional (tbl : OrdersTable) (r : OrderRecord) :
    Except String OrdersTable :=
  match lookupOrder tbl r.orderId with
  | some _ => Except.error conditionalCheckFailed
  | none => Except.ok (tbl ++ [r])

/-- Outcome of a call to the external text-completion service, as the
`try/catch` in the source distinguishes them: a successful, parseable
response of payload `α`, or any of the failure modes (all of which land in
the same `catch` block). -/
inductive DepOutcome (α : Type) where
  | success (v : α)
  | timeout
  | transportError
  | unparseable
deriving DecidableEq

/-- The structured verdict the fraud check returns. -/
structure FraudResult where
  isFraudulent : Bool
  reason : String
deriving DecidableEq

/-- The result `checkFraud` returns from its `catch` block: fail open with a
sentinel reason (order-service/index.ts, catch of `checkFraud`). -/
def failOpenResult : FraudResult :=
  { isFraudulent := false, reason := "fraud check unavailable" }

/-- `checkFraud` (order-service/index.ts): posts the order to the Groq API
inside a `try`; returns the parsed verdict on success, and on any error —
timeout, transport failure, or a `JSON.parse` failure on the response body —
falls into the `catch` and returns the fail-open sentinel. -/
def checkFraud (dep : DepOutcome FraudResult) : FraudResult :=
  match dep with
  | DepOutcome.success v => v
  | DepOutcome.timeout => failOpenResult
  | DepOutcome.transportError => failOpenResult
  | DepOutcome.unparseable => failOpenResult

/-- The request body as `JSON.parse` delivers it: each field may be absent. -/
structure RawOrderBody where
  customerId : Option String := none
  productId : Option String := none
  quantity : Option Int := none
  totalAmount : Option Int := none
deriving DecidableEq

/-- JS truthiness of an optional string: `undefined` and `""` are falsy. -/
def truthyStr : Option String → Bool
  | none => false
  | some s => s ≠ ""

/-- JS truthiness of an optional number: `undefined` and `0` are falsy; any
other number (negative ones included) is truthy. -/
def truthyNum : Option Int → Bool
  | none => false
  | some n => n ≠ 0

/-- The source's validation guard
`!body.customerId || !body.productId || !body.quantity || !body.totalAmount`. -/
def validBody (b : RawOrderBody) : Bool :=
  truthyStr b.customerId && truthyStr b.productId &&
    truthyNum b.quantity && truthyNum b.totalAmount

/-- The event `handler` publishes to the SNS topic (order-service/index.ts):
the just-created order's fields plus the timestamp. -/
structure OrderEventMsg where
  orderId : String
  customerId : String
  productId : String
  quantity : Int
  totalAmount : Int
  timestamp : String
deriving DecidableEq

/-- Behaviour of the order-intake handler's dependencies for one request:
the fraud-check outcome, whether the store's put call and the bus's publish
call go through (`false` = the call throws). -/
structure IntakeEnv where
  fraudDep : DepOutcome FraudResult
  storeUp : Bool := true
  busUp : Bool := true
  orderId : String
  now : String
deriving DecidableEq

/-- What one invocation of the intake handler produced: the HTTP status
code, the `reason` field of a 422 body, the Orders table afterwards, and the
events published to the bus. -/
structure IntakeResult where
  statusCode : Nat
  reason : Option String
  table : OrdersTable
  published : List OrderEventMsg
deriving DecidableEq

/-- The record the intake handler writes: all attributes present,
`status = PENDING`, `createdAt = now` (order-service/index.ts). -/
def mkIntakeRecord (orderId : String) (b : RawOrderBody) (now : String) :
    OrderRecord :=
  { orderId := orderId
    customerId := b.customerId
    productId := b.productId
    quantity := b.quantity
    totalAmount := b.totalAmount
    status := some "PENDING"
    createdAt := some now }

/-- The OrderEvent the intake handler publishes, from the same fields
(`getD` defaults are unreachable once validation passed). -/
def mkIntakeEvent (orderId : String) (b : RawOrderBody) (now : String) :
    OrderEventMsg :=
  { orderId := orderId
    customerId := b.customerId.getD ""
    productId := b.productId.getD ""
    quantity := b.quantity.getD 0
    totalAmount := b.totalAmount.getD 0
    timestamp := now }

/-- `handler` of order-service/index.ts on an already-parsed body.  Control
flow of the source: validation (400), fraud check (422, before any write),
conditional put (any store error → outer catch → 500), publish (error →
outer catch → 500, the put not undone), then 201. -/
def createOrder (tbl : OrdersTable) (b : RawOrderBody) (env : IntakeEnv) :
    IntakeResult :=
  if ¬ validBody b then
    { statusCode := 400, reason := none, table := tbl, published := [] }
  else
    let fr := checkFraud env.fraudDep
    if fr.isFraudulent then
      { statusCode := 422, reason := some fr.reason, table := tbl,
        published := [] }
    else if ¬ env.storeUp then
      { statusCode := 500, reason := none, table := tbl, published := [] }
    else
      match putOrderConditional tbl (mkIntakeRecord env.orderId b env.now) with
      | Except.error _ =>
          { statusCode := 500, reason := none, table := tbl, published := [] }
      | Except.ok tbl1 =>
          if ¬ env.busUp then
            { statusCode := 500, reason := none, table := tbl1,
              published := [] }
          else
            { statusCode := 201, reason := none, table := tbl1,
              published := [mkIntakeEvent env.orderId b env.now] }

/-- The fan-out message the inventory and notification workers consume
(inventory-worker/index.ts, `interface OrderEvent`). -/
structure OrderEvent where
  orderId : String
  customerId : String
  productId : String
  quantity : Int
  totalAmount : Int
deriving DecidableEq

/-- The Inventory table: stock per `productId` (the `stock` attribute is a
number; `parseInt(item?.stock?.N || '0')` reads an absent item as 0). -/
abbrev InventoryTable : Type := List (String × Int)

/-- The item's `stock` attribute, if an item for the product exists. -/
def lookupStock (inv : InventoryTable) (productId : String) : Option Int :=
  match List.find? (fun p => p.fst = productId) inv with
  | some p => some p.snd
  | none => none

/-- Stock as the worker READS it, with the source's absent-item default of 0
(`parseInt(currentStock.Item?.stock?.N || '0')`). -/
def readStock (inv : InventoryTable) (productId : String) : Int :=
  (lookupStock inv productId).getD 0

/-- Write the stock value of one product (the effect of a successful
`SET stock = stock - :qty`).  The `stock >= :qty` condition only passes on
an existing item, so a successful decrement always lands in the update
branch; the creation branch is kept for totality. -/
def writeStock (inv : InventoryTable) (productId : String) (v : Int) :
    InventoryTable :=
  match List.find? (fun p => p.fst = productId) inv with
  | some _ => List.map (fun p => if p.fst = productId then (p.fst, v) else p) inv
  | none => inv ++ [(productId, v)]

/-- `updateOrderStatus` (inventory-worker/index.ts): an `UpdateItemCommand`
with `SET #s = :status, updatedAt = :ts` and no condition expression.
DynamoDB upserts: if an item with the key exists, the two attributes are
set on it; if none exists, a fresh item is created holding only the key,
the status and `updatedAt`. -/
def updateOrderStatus (tbl : OrdersTable) (orderId status now : String) :
    OrdersTable :=
  match lookupOrder tbl orderId with
  | some _ =>
      List.map
        (fun r =>
          if r.orderId = orderId then
            { r with status := some status, updatedAt := some now }
          else r)
        tbl
  | none => tbl ++ [{ orderId := orderId, status := some status,
                      updatedAt := some now }]

/-- Joint state of the two store tables the worker touches. -/
structure SysState where
  inventory : InventoryTable
  orders : OrdersTable
deriving DecidableEq

/-- Fault injection for one processed record: each store call of the worker
may instead throw an error with the given name, and `stockAtWrite` is the
stock value the item holds at the instant the conditional decrement is
evaluated (it differs from the value read earlier exactly when a concurrent
settlement wrote in between; `none` means no interference, so the write
sees the item as the state holds it). -/
structure WorkerFaults where
  getItemError : Option String := none
  insuffStatusError : Option String := none
  decrementError : Option String := none
  stockAtWrite : Option Int := none
  confirmStatusError : Option String := none
  catchStatusError : Option String := none
deriving DecidableEq

/-- All dependency calls succeed and no concurrent writer interferes. -/
def noFaults : WorkerFaults := {}

/-- The `try` block of the worker's per-record loop
(inventory-worker/index.ts).  Returns the state as far as the mutations got,
plus the error that escaped the block, if any: read stock (absent item = 0);
if `stock < quantity` write `FAILED_INSUFFICIENT_STOCK` and finish the
record; otherwise issue the conditional decrement, whose condition
`stock >= :qty` the store evaluates against the item at the instant of the
write — it fails with a conditional-check error both when the item's stock
is below the quantity and when no item for the product exists at all (a
condition over an attribute of a missing item never holds, and the rejected
update creates nothing); on success, write `CONFIRMED`. -/
def settleTry (st : SysState) (ev : OrderEvent) (f : WorkerFaults)
    (now : String) : SysState × Option String :=
  match f.getItemError with
  | some e => (st, some e)
  | none =>
    let stock := readStock st.inventory ev.productId
    if stock < ev.quantity then
      match f.insuffStatusError with
      | some e => (st, some e)
      | none =>
          ({ st with
             orders := updateOrderStatus st.orders ev.orderId
               "FAILED_INSUFFICIENT_STOCK" now }, none)
    else
      match f.decrementError with
      | some e => (st, some e)
      | none =>
        let itemAtWrite : Option Int :=
          match f.stockAtWrite with
          | some w => some w
          | none => lookupStock st.inventory ev.productId
        match itemAtWrite with
        | none => (st, some conditionalCheckFailed)
        | some current =>
          if ev.quantity ≤ current then
            let st1 : SysState :=
              { st with
                inventory := writeStock st.inventory ev.productId
                  (current - ev.quantity) }
            match f.confirmStatusError with
            | some e => (st1, some e)
            | none =>
                ({ st1 with
                   orders := updateOrderStatus st1.orders ev.orderId
                     "CONFIRMED" now }, none)
          else (st, some conditionalCheckFailed)

/-- One iteration of the worker's loop (inventory-worker/index.ts): run the
`try` block; in the `catch`, a `ConditionalCheckFailedException` writes
`FAILED_INSUFFICIENT_STOCK` and consumes the record, any other error is
re-thrown so SQS redelivers.  The second component is the error propagated
out of the handler (`none` = the record was consumed successfully). -/
def processRecord (st : SysState) (ev : OrderEvent) (f : WorkerFaults)
    (now : String) : SysState × Option String :=
  match settleTry st ev f now with
  | (st1, none) => (st1, none)
  | (st1, some e) =>
      if e = conditionalCheckFailed then
        match f.catchStatusError with
        | some e2 => (st1, some e2)
        | none =>
            ({ st1 with
               orders := updateOrderStatus st1.orders ev.orderId
                 "FAILED_INSUFFICIENT_STOCK" now }, none)
      else (st1, some e)

/-- Subject/body pair the notification worker mails. -/
structure EmailContent where
  subject : String
  body : String
deriving DecidableEq

/-- The fallback template of `generateEmailContent` (notification worker):
pure local formatting from the order's own fields, no dependency call. -/
def fallbackContent (order : OrderEvent) : EmailContent :=
  { subject := "Order Confirmation #" ++ order.orderId
    body := "Thank you for your order! Your order for " ++
      toString order.quantity ++ "x " ++ order.productId ++ " ($" ++
      toString order.totalAmount ++
      ") has been received and is being processed." }

/-- `generateEmailContent` (notification worker): query the Groq API inside
a `try`; on success return the parsed subject/body; on any failure — call
error, timeout, or `JSON.parse` failure — the `catch` returns the fallback
template. -/
def generateEmailContent (order : OrderEvent)
    (dep : DepOutcome EmailContent) : EmailContent :=
  match dep with
  | DepOutcome.success c => c
  | DepOutcome.timeout => fallbackContent order
  | DepOutcome.transportError => fallbackContent order
  | DepOutcome.unparseable => fallbackContent order

/-!
Concurrency model of inventory settlement for one product.  Several worker
instances run the per-record algorithm of inventory-worker/index.ts
concurrently against the same product, each settling a distinct order
(redelivery of the same order's event is the subject of the exactly-once
property, treated separately).  The shared state is the product's stock; the
atomic actions are exactly the store calls of the source: the `GetItem`
read, the conditional decrement (whose condition `stock >= :qty` the store
evaluates against the stock at the instant of the write), and the order
status write.  A schedule interleaves these actions arbitrarily.
-/

/-- Program counter of one settlement attempt: before the read; after the
read (holding the value read); about to write the failed status (from an
insufficient read or a rejected decrement); decremented, about to write the
confirmed status; finished with the final verdict (`true` = CONFIRMED,
`false` = FAILED_INSUFFICIENT_STOCK). -/
inductive SettlePC where
  | start
  | readDone (r : Int)
  | failWrite
  | confirmWrite
  | done (confirmed : Bool)
deriving DecidableEq

/-- One settlement attempt: the order's quantity and its progress. -/
structure Settler where
  qty : Int
  pc : SettlePC
deriving DecidableEq

/-- Shared stock of the product plus the state of every attempt. -/
structure RaceState where
  stock : Int
  procs : List Settler
deriving DecidableEq

/-- One atomic action of attempt `i` (no-op on an out-of-range index or a
finished attempt).  From `readDone r`: if `r < qty` the worker skips
inventory and goes to the failed-status write; otherwise it issues the
conditional decrement, which the store accepts iff the CURRENT stock — not
`r` — is at least `qty`. -/
def stepSettler (s : RaceState) (i : Nat) : RaceState :=
  match s.procs[i]? with
  | none => s
  | some p =>
    match p.pc with
    | SettlePC.start =>
        { s with procs := s.procs.set i { p with pc := SettlePC.readDone s.stock } }
    | SettlePC.readDone r =>
        if r < p.qty then
          { s with procs := s.procs.set i { p with pc := SettlePC.failWrite } }
        else if p.qty ≤ s.stock then
          { stock := s.stock - p.qty
            procs := s.procs.set i { p with pc := SettlePC.confirmWrite } }
        else
          { s with procs := s.procs.set i { p with pc := SettlePC.failWrite } }
    | SettlePC.failWrite =>
        { s with procs := s.procs.set i { p with pc := SettlePC.done false } }
    | SettlePC.confirmWrite =>
        { s with procs := s.procs.set i { p with pc := SettlePC.done true } }
    | SettlePC.done _ => s

/-- Run a schedule: each entry names the attempt performing its next atomic
action.  Every prefix of a schedule is itself a schedule, so a property
proved of all schedules holds at every intermediate state. -/
def runSettlers (s : RaceState) (sched : List Nat) : RaceState :=
  sched.foldl stepSettler s

/-- Initial state: stock `S`, one fresh attempt per quantity. -/
def initRace (S : Int) (qtys : List Int) : RaceState :=
  { stock := S
    procs := qtys.map (fun q => { qty := q, pc := SettlePC.start }) }

/-- Stock already taken by this attempt: its quantity once the decrement has
succeeded (whether or not the confirmed-status write has happened yet). -/
def chargedQty (p : Settler) : Int :=
  match p.pc with
  | SettlePC.confirmWrite => p.qty
  | SettlePC.done true => p.qty
  | _ => 0

/-- Quantity of an attempt whose order reached status CONFIRMED. -/
def confirmedQty (p : Settler) : Int :=
  match p.pc with
  | SettlePC.done true => p.qty
  | _ => 0

/-- Sum of the already-taken quantities. -/
def chargedSum (l : List Settler) : Int := (l.map chargedQty).sum

/-- Sum of the quantities of all orders that reached CONFIRMED. -/
def confirmedSum (l : List Settler) : Int := (l.map confirmedQty).sum

/-- An attempt that has finished. -/
def isDone (p : Settler) : Bool :=
  match p.pc with
  | SettlePC.done _ => true
  | _ => false

lemma sum_map_set (f : Settler → Int) :
    ∀ (l : List Settler) (i : Nat) (p a : Settler), l[i]? = some p →
      ((l.set i a).map f).sum = (l.map f).sum - f p + f a := by
  intro l
  induction l with
  | nil =>
      intro i p a h
      simp at h
  | cons x xs ih =>
      intro i p a h
      cases i with
      | zero =>
          simp only [List.getElem?_cons_zero, Option.some.injEq] at h
          subst h
          simp only [List.set_cons_zero, List.map_cons, List.sum_cons]
          ring
      | succ j =>
          simp only [List.getElem?_cons_succ] at h
          simp only [List.set_cons_succ, List.map_cons, List.sum_cons,
            ih j p a h]
          ring

/-- The inductive invariant: stock is non-negative and, together with the
quantities already taken, accounts exactly for the initial stock. -/
def StockInv (S : Int) (s : RaceState) : Prop :=
  0 ≤ s.stock ∧ s.stock + chargedSum s.procs = S

lemma stockInv_step (S : Int) (s : RaceState) (i : Nat)
    (h : StockInv S s) : StockInv S (stepSettler s i) := by
  unfold StockInv at h ⊢
  obtain ⟨h0, hsum⟩ := h
  cases hp : s.procs[i]? with
  | none =>
      have hstep : stepSettler s i = s := by
        simp [stepSettler, hp]
      rw [hstep]
      exact ⟨h0, hsum⟩
  | some p =>
      cases hpc : p.pc with
      | start =>
          have hstep : stepSettler s i =
              { s with procs := s.procs.set i ({ p with pc := SettlePC.readDone s.stock }) } := by
            simp [stepSettler, hp, hpc]
          rw [hstep]
          refine ⟨h0, ?_⟩
          simp only [chargedSum] at hsum ⊢
          rw [sum_map_set chargedQty s.procs i p _ hp]
          simp [chargedQty, hpc]
          omega
      | readDone r =>
          by_cases hr : r < p.qty
          · have hstep : stepSettler s i =
                { s with procs := s.procs.set i ({ p with pc := SettlePC.failWrite }) } := by
              simp [stepSettler, hp, hpc, hr]
            rw [hstep]
            refine ⟨h0, ?_⟩
            simp only [chargedSum] at hsum ⊢
            rw [sum_map_set chargedQty s.procs i p _ hp]
            simp [chargedQty, hpc]
            omega
          · by_cases hq : p.qty ≤ s.stock
            · have hstep : stepSettler s i =
                  { stock := s.stock - p.qty
                    procs := s.procs.set i ({ p with pc := SettlePC.confirmWrite }) } := by
                simp [stepSettler, hp, hpc, hr, hq]
              rw [hstep]
              refine ⟨by simp; omega, ?_⟩
              simp only [chargedSum] at hsum ⊢
              rw [sum_map_set chargedQty s.procs i p _ hp]
              simp [chargedQty, hpc]
              omega
            · have hstep : stepSettler s i =
                  { s with procs := s.procs.set i ({ p with pc := SettlePC.failWrite }) } := by
                simp [stepSettler, hp, hpc, hr, hq]
              rw [hstep]
              refine ⟨h0, ?_⟩
              simp only [chargedSum] at hsum ⊢
              rw [sum_map_set chargedQty s.procs i p _ hp]
              simp [chargedQty, hpc]
              omega
      | failWrite =>
          have hstep : stepSettler s i =
              { s with procs := s.procs.set i ({ p with pc := SettlePC.done false }) } := by
            simp [stepSettler, hp, hpc]
          rw [hstep]
          refine ⟨h0, ?_⟩
          simp only [chargedSum] at hsum ⊢
          rw [sum_map_set chargedQty s.procs i p _ hp]
          simp [chargedQty, hpc]
          omega
      | confirmWrite =>
          have hstep : stepSettler s i =
              { s with procs := s.procs.set i ({ p with pc := SettlePC.done true }) } := by
            simp [stepSettler, hp, hpc]
          rw [hstep]
          refine ⟨h0, ?_⟩
          simp only [chargedSum] at hsum ⊢
          rw [sum_map_set chargedQty s.procs i p _ hp]
          simp [chargedQty, hpc]
          omega
      | done b =>
          have hstep : stepSettler s i = s := by
            simp [stepSettler, hp, hpc]
          rw [hstep]
          exact ⟨h0, hsum⟩

lemma stockInv_run (S : Int) (s : RaceState) (sched : List Nat)
    (h : StockInv S s) : StockInv S (runSettlers s sched) := by
  induction sched generalizing s with
  | nil => exact h
  | cons i rest ih =>
      exact ih (stepSettler s i) (stockInv_step S s i h)

lemma stockInv_init (S : Int) (qtys : List Int) (hS : 0 ≤ S) :
    StockInv S (initRace S qtys) := by
  unfold StockInv
  have hz : chargedSum ((initRace S qtys).procs) = 0 := by
    unfold initRace chargedSum
    simp only [List.map_map]
    apply List.sum_eq_zero
    intro x hx
    rcases List.mem_map.mp hx with ⟨q, _, rfl⟩
    rfl
  rw [hz]
  exact ⟨hS, by simp [initRace]⟩

lemma charged_eq_confirmed_of_done (l : List Settler)
    (h : l.all isDone = true) : chargedSum l = confirmedSum l := by
  unfold chargedSum confirmedSum
  congr 1
  apply List.map_congr_left
  intro p hp
  have hd : isDone p = true := List.all_eq_true.mp h p hp
  unfold isDone at hd
  cases hpc : p.pc with
  | start => rw [hpc] at hd; simp at hd
  | readDone r => rw [hpc] at hd; simp at hd
  | failWrite => rw [hpc] at hd; simp at hd
  | confirmWrite => rw [hpc] at hd; simp at hd
  | done b =>
      cases b with
      | false => simp [chargedQty, confirmedQty, hpc]
      | true => simp [chargedQty, confirmedQty, hpc]

/-- The `status` attribute of the record stored under `orderId`, if any. -/
def statusOf (tbl : OrdersTable) (k : String) : Option String :=
  match lookupOrder tbl k with
  | some r => r.status
  | none => none

lemma lookupOrder_append_of_none (tbl l2 : OrdersTable) (k : String)
    (h : lookupOrder tbl k = none) :
    lookupOrder (tbl ++ l2) k = lookupOrder l2 k := by
  unfold lookupOrder at h ⊢
  rw [List.find?_append, h]
  rfl

lemma lookupOrder_update (tbl : OrdersTable) (k : String)
    (g : OrderRecord → OrderRecord) (hg : ∀ r, (g r).orderId = r.orderId) :
    lookupOrder (tbl.map (fun r => if r.orderId = k then g r else r)) k =
      (lookupOrder tbl k).map g := by
  induction tbl with
  | nil => rfl
  | cons x xs ih =>
      by_cases hx : x.orderId = k
      · unfold lookupOrder
        simp only [List.map_cons, hx, if_true]
        rw [List.find?_cons_of_pos, List.find?_cons_of_pos]
        · rfl
        · simp [hx]
        · simp [hg, hx]
      · unfold lookupOrder
        simp only [List.map_cons, hx, if_false]
        rw [List.find?_cons_of_neg, List.find?_cons_of_neg]
        · exact ih
        · simp [hx]
        · simp [hx]

lemma statusOf_update (tbl : OrdersTable) (k s now : String) :
    statusOf (updateOrderStatus tbl k s now) k = some s := by
  unfold updateOrderStatus
  cases h : lookupOrder tbl k with
  | none =>
      unfold statusOf
      rw [lookupOrder_append_of_none tbl _ k h]
      unfold lookupOrder
      rw [List.find?_cons_of_pos]
      simp
  | some r =>
      unfold statusOf
      rw [lookupOrder_update tbl k
        (fun r => { r with status := some s, updatedAt := some now })
        (fun r => rfl), h]
      rfl

lemma step_stock_change (t : RaceState) (i : Nat)
    (h : (stepSettler t i).stock ≠ t.stock) :
    ∃ p, t.procs[i]? = some p ∧ p.qty ≤ t.stock ∧
      (stepSettler t i).stock = t.stock - p.qty := by
  cases hp : t.procs[i]? with
  | none =>
      exact absurd (by simp [stepSettler, hp]) h
  | some p =>
      cases hpc : p.pc with
      | start => exact absurd (by simp [stepSettler, hp, hpc]) h
      | readDone r =>
          by_cases hr : r < p.qty
          · exact absurd (by simp [stepSettler, hp, hpc, hr]) h
          · by_cases hq : p.qty ≤ t.stock
            · exact ⟨p, rfl, hq, by simp [stepSettler, hp, hpc, hr, hq]⟩
            · exact absurd (by simp [stepSettler, hp, hpc, hr, hq]) h
      | failWrite => exact absurd (by simp [stepSettler, hp, hpc]) h
      | confirmWrite => exact absurd (by simp [stepSettler, hp, hpc]) h
      | done b => exact absurd (by simp [stepSettler, hp, hpc]) h

/-- C1.  No oversell: for every set of settlement attempts (one per order,
with quantities `qtys`) against a product of initial stock `S`, and every
interleaving `sched` of their atomic store actions, (i) the stock is never
negative (every prefix of a schedule being a schedule, this covers every
intermediate state); (ii) once all attempts have finished, the sum of the
quantities of the orders that reached CONFIRMED is at most `S` and the final
stock is exactly `S` minus that sum; (iii) the only action that changes the
stock is a decrement guarded by `quantity ≤ stock` evaluated on the stock
current at the instant of the write — not on the value read earlier. -/
theorem settlement_no_oversell (S : Int) (qtys : List Int) (sched : List Nat)
    (hS : 0 ≤ S) :
    0 ≤ (runSettlers (initRace S qtys) sched).stock ∧
    ((runSettlers (initRace S qtys) sched).procs.all isDone = true →
      (runSettlers (initRace S qtys) sched).stock =
        S - confirmedSum (runSettlers (initRace S qtys) sched).procs ∧
      confirmedSum (runSettlers (initRace S qtys) sched).procs ≤ S) ∧
    (∀ t : RaceState, ∀ i : Nat, (stepSettler t i).stock ≠ t.stock →
      ∃ p, t.procs[i]? = some p ∧ p.qty ≤ t.stock ∧
        (stepSettler t i).stock = t.stock - p.qty) := by
  have hinv := stockInv_run S (initRace S qtys) sched (stockInv_init S qtys hS)
  unfold StockInv at hinv
  obtain ⟨h0, hsum⟩ := hinv
  refine ⟨h0, ?_, step_stock_change⟩
  intro hdone
  have hce := charged_eq_confirmed_of_done _ hdone
  rw [hce] at hsum
  omega

/-- Witness for C1: stock 1, two concurrent attempts of quantity 1 each,
fully interleaved (the §8 race scenario): exactly one confirms, the final
stock is 0, and it never went negative. -/
theorem settlement_no_oversell_witness :
    0 ≤ (1 : Int) ∧
    0 ≤ (runSettlers (initRace 1 [1, 1]) [0, 1, 0, 1, 0, 1]).stock ∧
    (runSettlers (initRace 1 [1, 1]) [0, 1, 0, 1, 0, 1]).procs.all isDone
      = true ∧
    confirmedSum (runSettlers (initRace 1 [1, 1]) [0, 1, 0, 1, 0, 1]).procs
      = 1 ∧
    (runSettlers (initRace 1 [1, 1]) [0, 1, 0, 1, 0, 1]).stock = 0 := by
  have h := settlement_no_oversell 1 [1, 1] [0, 1, 0, 1, 0, 1] (by decide)
  refine ⟨by decide, h.1, by decide, by decide, ?_⟩
  have h2 := (h.2.1 (by decide)).1
  rw [h2]
  decide

/-- C3.  Idempotent insert: two insert attempts into the Orders table with
the same `orderId` leave exactly one stored record, the first write's; the
second attempt is rejected by the `attribute_not_exists(orderId)` condition
with a conditional-check failure and returns no modified table, so the
existing record is not overwritten. -/
theorem idempotent_insert (tbl : OrdersTable) (r1 r2 : OrderRecord)
    (hk : r2.orderId = r1.orderId)
    (h0 : lookupOrder tbl r1.orderId = none) :
    putOrderConditional tbl r1 = Except.ok (tbl ++ [r1]) ∧
    putOrderConditional (tbl ++ [r1]) r2 =
      Except.error conditionalCheckFailed ∧
    lookupOrder (tbl ++ [r1]) r1.orderId = some r1 ∧
    ((tbl ++ [r1]).filter (fun r => r.orderId = r1.orderId)).length = 1 := by
  have hl : lookupOrder (tbl ++ [r1]) r1.orderId = some r1 := by
    rw [lookupOrder_append_of_none tbl _ _ h0]
    unfold lookupOrder
    rw [List.find?_cons_of_pos]
    simp
  refine ⟨?_, ?_, hl, ?_⟩
  · unfold putOrderConditional
    rw [h0]
  · unfold putOrderConditional
    rw [hk, hl]
  · have hnone : ∀ r ∈ tbl, ¬ (r.orderId = r1.orderId) := by
      intro r hr
      have := List.find?_eq_none.mp h0 r hr
      simpa using this
    rw [List.filter_append]
    have h1 : tbl.filter (fun r => r.orderId = r1.orderId) = [] := by
      apply List.filter_eq_nil_iff.mpr
      intro r hr
      simpa using hnone r hr
    rw [h1]
    simp

/-- Witness for C3 on the empty table and two concrete records sharing
`orderId` "O-1". -/
theorem idempotent_insert_witness :
    (({ orderId := "O-1", customerId := some "C-2" } : OrderRecord).orderId =
      ({ orderId := "O-1", customerId := some "C-1" } : OrderRecord).orderId) ∧
    lookupOrder [] "O-1" = none ∧
    putOrderConditional []
        { orderId := "O-1", customerId := some "C-1" } =
      Except.ok [{ orderId := "O-1", customerId := some "C-1" }] ∧
    putOrderConditional [{ orderId := "O-1", customerId := some "C-1" }]
        { orderId := "O-1", customerId := some "C-2" } =
      Except.error conditionalCheckFailed := by
  have h := idempotent_insert []
    { orderId := "O-1", customerId := some "C-1" }
    { orderId := "O-1", customerId := some "C-2" }
    (by decide) (by decide)
  exact ⟨by decide, by decide, h.1, h.2.1⟩

/-- C10.  The settlement worker's status write is an unconditioned upsert:
run against an `orderId` with no record in the Orders table,
`updateOrderStatus` creates a fresh record holding only the key, the status
and `updatedAt` — every other attribute absent — instead of failing or
leaving the table unchanged. -/
theorem updateOrderStatus_upserts (tbl : OrdersTable) (k s now : String)
    (h : lookupOrder tbl k = none) :
    lookupOrder (updateOrderStatus tbl k s now) k =
      some { orderId := k, status := some s, updatedAt := some now } := by
  unfold updateOrderStatus
  rw [h]
  rw [lookupOrder_append_of_none tbl _ _ h]
  unfold lookupOrder
  rw [List.find?_cons_of_pos]
  simp

/-- Witness for C10 on the empty Orders table. -/
theorem updateOrderStatus_upserts_witness :
    lookupOrder [] "O-7" = none ∧
    lookupOrder (updateOrderStatus [] "O-7" "CONFIRMED" "t1") "O-7" =
      some { orderId := "O-7", status := some "CONFIRMED",
             updatedAt := some "t1" } :=
  ⟨by decide, updateOrderStatus_upserts [] "O-7" "CONFIRMED" "t1" (by decide)⟩

/-- The redelivered event of order O-1 (P-1, quantity 2). -/
def evO1 : OrderEvent :=
  { orderId := "O-1", customerId := "C-1", productId := "P-1",
    quantity := 2, totalAmount := 100 }

/-- Initial state for the redelivery runs: order O-1 is PENDING. -/
def pendingO1 : OrderRecord :=
  { orderId := "O-1", customerId := some "C-1", productId := some "P-1",
    quantity := some 2, totalAmount := some 100, status := some "PENDING",
    createdAt := some "t0" }

/-- State before the first delivery: stock(P-1) = 3, order O-1 PENDING. -/
def stStock3 : SysState :=
  { inventory := [("P-1", 3)], orders := [pendingO1] }

/-- State before the first delivery: stock(P-1) = 10, order O-1 PENDING. -/
def stStock10 : SysState :=
  { inventory := [("P-1", 10)], orders := [pendingO1] }

/-- C2 fails on the code: the worker has no order-status guard, so
re-processing the same OrderEvent after the order reached a terminal status
settles inventory again.  With stock 3 and quantity 2, the first delivery
confirms the order and leaves stock 1; redelivering the very same event
consumes successfully again and overwrites the terminal status CONFIRMED
with FAILED_INSUFFICIENT_STOCK — a transition out of a terminal state.
With stock 10, the redelivery keeps the status CONFIRMED but decrements the
stock a second time, 10 → 8 → 6. -/
theorem redelivery_resettles_terminal_order :
    ((processRecord stStock3 evO1 noFaults "t1").snd = none ∧
     statusOf (processRecord stStock3 evO1 noFaults "t1").fst.orders "O-1" =
       some "CONFIRMED" ∧
     readStock (processRecord stStock3 evO1 noFaults "t1").fst.inventory
       "P-1" = 1 ∧
     (processRecord (processRecord stStock3 evO1 noFaults "t1").fst
        evO1 noFaults "t2").snd = none ∧
     statusOf (processRecord (processRecord stStock3 evO1 noFaults "t1").fst
        evO1 noFaults "t2").fst.orders "O-1" =
       some "FAILED_INSUFFICIENT_STOCK") ∧
    (readStock (processRecord stStock10 evO1 noFaults "t1").fst.inventory
       "P-1" = 8 ∧
     readStock (processRecord (processRecord stStock10 evO1 noFaults
       "t1").fst evO1 noFaults "t2").fst.inventory "P-1" = 6 ∧
     statusOf (processRecord (processRecord stStock10 evO1 noFaults
       "t1").fst evO1 noFaults "t2").fst.orders "O-1" =
       some "CONFIRMED") := by
  decide

/-- C4.  Insufficient stock at the read (an absent inventory item reads as
stock 0): the worker leaves the inventory table untouched, sets the order's
status to FAILED_INSUFFICIENT_STOCK, and consumes the event successfully
(no error propagates, so the transport does not retry). -/
theorem insufficient_stock_no_retry (st : SysState) (ev : OrderEvent)
    (now : String)
    (h : readStock st.inventory ev.productId < ev.quantity) :
    (processRecord st ev noFaults now).fst.inventory = st.inventory ∧
    statusOf (processRecord st ev noFaults now).fst.orders ev.orderId =
      some "FAILED_INSUFFICIENT_STOCK" ∧
    (processRecord st ev noFaults now).snd = none := by
  have hstep : processRecord st ev noFaults now =
      ({ st with orders := updateOrderStatus st.orders ev.orderId "FAILED_INSUFFICIENT_STOCK" now }, none) := by
    unfold processRecord settleTry noFaults
    simp [h]
  rw [hstep]
  exact ⟨rfl, statusOf_update st.orders ev.orderId _ now, rfl⟩

/-- The state of the C4 witness: both tables empty. -/
def stEmpty : SysState := { inventory := [], orders := [] }

/-- Event of the C4 witness: order O-4 requests 10 of the absent P-9. -/
def evO4 : OrderEvent :=
  { orderId := "O-4", customerId := "C-4", productId := "P-9",
    quantity := 10, totalAmount := 70 }

/-- Witness for C4: product P-9 absent from inventory (stock reads 0),
requested quantity 10. -/
theorem insufficient_stock_no_retry_witness :
    readStock stEmpty.inventory "P-9" < 10 ∧
    (processRecord stEmpty evO4 noFaults "t1").fst.inventory = [] ∧
    statusOf (processRecord stEmpty evO4 noFaults "t1").fst.orders "O-4"
      = some "FAILED_INSUFFICIENT_STOCK" ∧
    (processRecord stEmpty evO4 noFaults "t1").snd = none :=
  ⟨by decide,
    (insufficient_stock_no_retry stEmpty evO4 "t1" (by decide)).1,
    (insufficient_stock_no_retry stEmpty evO4 "t1" (by decide)).2.1,
    (insufficient_stock_no_retry stEmpty evO4 "t1" (by decide)).2.2⟩

/-- C5.  In the settlement worker, against a product whose item exists with
stock `cur`, a conditional decrement rejected by the store (a lost race:
the read saw stock `cur` ≥ quantity, but at the instant of the write the
item held `w` < quantity) ends in order status FAILED_INSUFFICIENT_STOCK
and successful consumption of the event, while a failure with any other
error name `e` — at the stock read, at either status write, at the
decrement call itself, or at the status write inside the catch —
propagates out of the handler so the transport redelivers. -/
theorem lost_race_consumed_other_errors_propagate
    (st : SysState) (ev : OrderEvent) (now : String) (cur w : Int)
    (e : String)
    (he : e ≠ conditionalCheckFailed)
    (hcur : lookupStock st.inventory ev.productId = some cur) :
    (ev.quantity ≤ cur → w < ev.quantity →
      (processRecord st ev { stockAtWrite := some w } now).snd = none ∧
      statusOf (processRecord st ev { stockAtWrite := some w } now).fst.orders
        ev.orderId = some "FAILED_INSUFFICIENT_STOCK") ∧
    ((processRecord st ev { getItemError := some e } now).snd = some e) ∧
    (cur < ev.quantity →
      (processRecord st ev { insuffStatusError := some e } now).snd
        = some e) ∧
    (ev.quantity ≤ cur →
      (processRecord st ev { decrementError := some e } now).snd = some e) ∧
    (ev.quantity ≤ cur →
      (processRecord st ev { confirmStatusError := some e } now).snd
        = some e) ∧
    (ev.quantity ≤ cur → w < ev.quantity →
      (processRecord st ev { stockAtWrite := some w, catchStatusError := some e } now).snd
        = some e) := by
  have hread : readStock st.inventory ev.productId = cur := by
    unfold readStock
    rw [hcur]
    rfl
  refine ⟨?_, ?_, ?_, ?_, ?_, ?_⟩
  · intro hr hw
    have h1 : ¬ (readStock st.inventory ev.productId < ev.quantity) := by
      rw [hread]
      exact not_lt.mpr hr
    have h2 : ¬ (ev.quantity ≤ w) := not_le.mpr hw
    have hstep :
        processRecord st ev { stockAtWrite := some w } now =
          ({ st with orders := updateOrderStatus st.orders ev.orderId "FAILED_INSUFFICIENT_STOCK" now }, none) := by
      unfold processRecord settleTry
      simp [h1, h2]
    rw [hstep]
    exact ⟨rfl, statusOf_update st.orders ev.orderId _ now⟩
  · unfold processRecord settleTry
    simp [he]
  · intro hlt
    have h1 : readStock st.inventory ev.productId < ev.quantity := by
      rw [hread]
      exact hlt
    unfold processRecord settleTry
    simp [h1, he]
  · intro hr
    have h1 : ¬ (readStock st.inventory ev.productId < ev.quantity) := by
      rw [hread]
      exact not_lt.mpr hr
    unfold processRecord settleTry
    simp [h1, he]
  · intro hr
    have h1 : ¬ (readStock st.inventory ev.productId < ev.quantity) := by
      rw [hread]
      exact not_lt.mpr hr
    unfold processRecord settleTry
    simp [h1, hcur, hr, he]
  · intro hr hw
    have h1 : ¬ (readStock st.inventory ev.productId < ev.quantity) := by
      rw [hread]
      exact not_lt.mpr hr
    have h2 : ¬ (ev.quantity ≤ w) := not_le.mpr hw
    unfold processRecord settleTry
    simp [h1, h2, he]

/-- State of the C5 witness: stock(P-5) = 5. -/
def stRace : SysState := { inventory := [("P-5", 5)], orders := [] }

/-- Event of the C5 witness: order O-5 requests 2 of P-5. -/
def evO5 : OrderEvent :=
  { orderId := "O-5", customerId := "C-5", productId := "P-5",
    quantity := 2, totalAmount := 30 }

/-- Witness for C5: the read sees stock 5 ≥ 2, a concurrent settlement
leaves stock 1 at the instant of the write (the decrement is rejected), the
order fails and the event is consumed; a store outage at the read
propagates. -/
theorem lost_race_consumed_other_errors_propagate_witness :
    ("ServiceUnavailable" ≠ conditionalCheckFailed) ∧
    lookupStock stRace.inventory evO5.productId = some 5 ∧
    (processRecord stRace evO5 { stockAtWrite := some 1 } "t1").snd
      = none ∧
    statusOf (processRecord stRace evO5 { stockAtWrite := some 1 } "t1").fst.orders
      "O-5" = some "FAILED_INSUFFICIENT_STOCK" ∧
    (processRecord stRace evO5 { getItemError := some "ServiceUnavailable" } "t1").snd
      = some "ServiceUnavailable" := by
  have h := lost_race_consumed_other_errors_propagate stRace evO5 "t1" 5 1
    "ServiceUnavailable" (by decide) (by decide)
  have h0 := h.1 (by decide) (by decide)
  exact ⟨by decide, by decide, h0.1, h0.2, h.2.1⟩

/-- A dependency call that did not return a successful, parseable response
(every such outcome lands in the source's `catch` block). -/
def depFailed {α : Type} : DepOutcome α → Bool
  | DepOutcome.success _ => false
  | DepOutcome.timeout => true
  | DepOutcome.transportError => true
  | DepOutcome.unparseable => true

/-- A string of positive length is not the empty string. -/
lemma ne_empty_of_length_pos (s : String) (h : 0 < s.length) : s ≠ "" := by
  intro he
  rw [he] at h
  simp at h

/-- C6.  Fail-open: whenever the fraud-scoring call fails for any reason
(timeout, transport failure, unparseable response), the Risk Gate returns
`isFraudulent = false` with the sentinel reason "fraud check unavailable",
and `createOrder` on a valid body still succeeds with 201 (given the store
accepts the fresh `orderId` and the bus is reachable) instead of throwing. -/
theorem fail_open_still_creates (tbl : OrdersTable) (b : RawOrderBody)
    (env : IntakeEnv)
    (hv : validBody b = true)
    (hdep : depFailed env.fraudDep = true)
    (hstore : env.storeUp = true) (hbus : env.busUp = true)
    (hfree : lookupOrder tbl env.orderId = none) :
    checkFraud env.fraudDep = failOpenResult ∧
    (checkFraud env.fraudDep).isFraudulent = false ∧
    (checkFraud env.fraudDep).reason = "fraud check unavailable" ∧
    (createOrder tbl b env).statusCode = 201 := by
  have hcf : checkFraud env.fraudDep = failOpenResult := by
    cases hd : env.fraudDep with
    | success v =>
        rw [hd] at hdep
        simp [depFailed] at hdep
    | timeout => rfl
    | transportError => rfl
    | unparseable => rfl
  refine ⟨hcf, by rw [hcf]; rfl, by rw [hcf]; rfl, ?_⟩
  have hput : putOrderConditional tbl (mkIntakeRecord env.orderId b env.now) =
      Except.ok (tbl ++ [mkIntakeRecord env.orderId b env.now]) := by
    unfold putOrderConditional
    rw [show (mkIntakeRecord env.orderId b env.now).orderId = env.orderId
      from rfl, hfree]
  unfold createOrder
  simp [hv, hcf, failOpenResult, hstore, hbus, hput]

/-- The valid request body of the C6/C7 witnesses. -/
def bOk : RawOrderBody :=
  { customerId := some "C-1", productId := some "P-1",
    quantity := some 2, totalAmount := some 100 }

/-- Environment of the C6 witness: the fraud-scoring call times out. -/
def envTimeout : IntakeEnv :=
  { fraudDep := DepOutcome.timeout, orderId := "O-6", now := "t0" }

/-- Witness for C6: a timed-out fraud check on a valid body yields 201. -/
theorem fail_open_still_creates_witness :
    validBody bOk = true ∧
    depFailed envTimeout.fraudDep = true ∧
    checkFraud envTimeout.fraudDep = failOpenResult ∧
    (createOrder [] bOk envTimeout).statusCode = 201 := by
  have h := fail_open_still_creates [] bOk envTimeout (by decide) (by decide)
    (by decide) (by decide) (by decide)
  exact ⟨by decide, by decide, h.1, h.2.2.2⟩

/-- C7.  A flagged order is rejected before any side effect: when the Risk
Gate returns `isFraudulent = true` on a valid body, `createOrder` answers
422 carrying the gate's reason, writes nothing to the Orders table and
publishes no event. -/
theorem fraud_flag_rejected_no_side_effects (tbl : OrdersTable)
    (b : RawOrderBody) (env : IntakeEnv)
    (hv : validBody b = true)
    (hf : (checkFraud env.fraudDep).isFraudulent = true) :
    (createOrder tbl b env).statusCode = 422 ∧
    (createOrder tbl b env).reason = some (checkFraud env.fraudDep).reason ∧
    (createOrder tbl b env).table = tbl ∧
    (createOrder tbl b env).published = [] := by
  unfold createOrder
  simp [hv, hf]

/-- Environment of the C7 witness: the scoring service flags the order. -/
def envFlagged : IntakeEnv :=
  { fraudDep := DepOutcome.success
      { isFraudulent := true, reason := "abnormal quantity" }
    orderId := "O-7", now := "t0" }

/-- Witness for C7 on a valid body and a flagging Risk Gate verdict. -/
theorem fraud_flag_rejected_no_side_effects_witness :
    validBody bOk = true ∧
    (checkFraud envFlagged.fraudDep).isFraudulent = true ∧
    (createOrder [] bOk envFlagged).statusCode = 422 ∧
    (createOrder [] bOk envFlagged).reason = some "abnormal quantity" ∧
    (createOrder [] bOk envFlagged).table = [] ∧
    (createOrder [] bOk envFlagged).published = [] := by
  have h := fraud_flag_rejected_no_side_effects [] bOk envFlagged
    (by decide) (by decide)
  exact ⟨by decide, by decide, h.1, h.2.1, h.2.2.1, h.2.2.2⟩

/-- C8.  Fallback content: whenever the content-generation call fails, the
notification worker's `generateEmailContent` returns the deterministic
fallback template, whose subject and body are non-empty and are computed
purely from the order's own fields — two orders agreeing on orderId,
productId, quantity and totalAmount get the same fallback, whatever their
other fields. -/
theorem fallback_content_from_order_fields (order : OrderEvent)
    (dep : DepOutcome EmailContent)
    (hdep : depFailed dep = true) :
    generateEmailContent order dep = fallbackContent order ∧
    (generateEmailContent order dep).subject ≠ "" ∧
    (generateEmailContent order dep).body ≠ "" ∧
    (∀ o2 : OrderEvent, o2.orderId = order.orderId →
      o2.productId = order.productId → o2.quantity = order.quantity →
      o2.totalAmount = order.totalAmount →
      fallbackContent o2 = fallbackContent order) := by
  have hfb : generateEmailContent order dep = fallbackContent order := by
    cases hd : dep with
    | success v =>
        rw [hd] at hdep
        simp [depFailed] at hdep
    | timeout => rfl
    | transportError => rfl
    | unparseable => rfl
  refine ⟨hfb, ?_, ?_, ?_⟩
  · rw [hfb]
    apply ne_empty_of_length_pos
    have h2 : 0 < ("Order Confirmation #" : String).length := by decide
    simp [fallbackContent, String.length_append]
    omega
  · rw [hfb]
    apply ne_empty_of_length_pos
    have h1 :
        0 < ("Thank you for your order! Your order for " : String).length :=
      by decide
    simp [fallbackContent, String.length_append]
    omega
  · intro o2 h1 h2 h3 h4
    simp [fallbackContent, h1, h2, h3, h4]

/-- Witness for C8: a transport failure on order O-8. -/
theorem fallback_content_from_order_fields_witness :
    depFailed (DepOutcome.transportError : DepOutcome EmailContent)
      = true ∧
    generateEmailContent
        { orderId := "O-8", customerId := "C-8", productId := "P-8",
          quantity := 3, totalAmount := 45 }
        DepOutcome.transportError =
      fallbackContent
        { orderId := "O-8", customerId := "C-8", productId := "P-8",
          quantity := 3, totalAmount := 45 } := by
  have h := fallback_content_from_order_fields
    { orderId := "O-8", customerId := "C-8", productId := "P-8",
      quantity := 3, totalAmount := 45 }
    DepOutcome.transportError (by decide)
  exact ⟨by decide, h.1⟩

/-- The all-fields-present body with a negative quantity of the C9 run. -/
def bNeg : RawOrderBody :=
  { customerId := some "C-1", productId := some "P-1",
    quantity := some (-5), totalAmount := some 100 }

/-- Environment of the C9 run: the scoring service does not flag. -/
def envClean : IntakeEnv :=
  { fraudDep := DepOutcome.success
      { isFraudulent := false, reason := "looks fine" }
    orderId := "O-9", now := "t0" }

/-- C9.  Validation is mere truthiness: a body whose `quantity` or
`totalAmount` equals 0 is rejected with 400, yet the body `bNeg` with all
fields present and `quantity = -5` passes validation and the order proceeds
all the way — through the fraud check, the conditional store write (the
stored record carries quantity −5) and the event publish — to a 201. -/
theorem truthy_validation_gap (tbl : OrdersTable) (b : RawOrderBody)
    (env : IntakeEnv)
    (hq : b.quantity = some 0 ∨ b.totalAmount = some 0) :
    (createOrder tbl b env).statusCode = 400 ∧
    (createOrder [] bNeg envClean).statusCode = 201 ∧
    (createOrder [] bNeg envClean).table =
      [mkIntakeRecord "O-9" bNeg "t0"] ∧
    (mkIntakeRecord "O-9" bNeg "t0").quantity = some (-5) ∧
    (createOrder [] bNeg envClean).published =
      [mkIntakeEvent "O-9" bNeg "t0"] ∧
    (mkIntakeEvent "O-9" bNeg "t0").quantity = -5 := by
  refine ⟨?_, by decide, by decide, by decide, by decide, by decide⟩
  have hvf : validBody b = false := by
    rcases hq with h | h
    · unfold validBody
      rw [h]
      simp [truthyNum]
    · unfold validBody
      rw [h]
      simp [truthyNum]
  unfold createOrder
  simp [hvf]

/-- A body with `quantity = 0` for the C9 witness. -/
def bZero : RawOrderBody :=
  { customerId := some "C-1", productId := some "P-1",
    quantity := some 0, totalAmount := some 50 }

/-- Witness for C9: quantity 0 is rejected with 400. -/
theorem truthy_validation_gap_witness :
    (bZero.quantity = some 0 ∨ bZero.totalAmount = some 0) ∧
    (createOrder [] bZero envClean).statusCode = 400 :=
  ⟨Or.inl rfl, (truthy_validation_gap [] bZero envClean (Or.inl rfl)).1⟩

end OrderSystem
